import Mathlib

/-!
# Verification of the hackathon-samsung speech-ordering web app

Shallow embedding of the repository's Python sources:

* `speech_recognition.py` — the Recognition Client (`voice_to_text`);
* `app.py` — the Flask upload handler (`upload_file`) and the Audio
  Normalizer (`convert_audio`);
* the vendored Azure binding `azure/cognitiveservices/speech/dialog.py` —
  the `DialogServiceConnector` blocking/async method pairs.

Side effects are made explicit: console prints become a list of
`PrintEvent`s, SDK interactions become a list of `SdkOp`s, filesystem
writes become a list of path/bytes pairs.  The remote speech service is an
explicit parameter (a function from session configuration and audio path to
a result), since its behaviour lives outside this repository.
-/

/-- Modelled from the spec: the SDK's `CancellationReason` enumeration
(the vendored `enums` module is not among the sources).  The spec's
glossary classifies cancellation as "error vs. explicit stop vs. no
speech"; the SDK names these `Error`, `CancelledByUser`, `EndOfStream`. -/
inductive CancellationReason where
  | error
  | endOfStream
  | cancelledByUser
deriving Repr, DecidableEq

/-- Embedding of the SDK's `CancellationDetails` as read by
`voice_to_text`: a reason plus the error-detail string. -/
structure CancellationDetails where
  reason : CancellationReason
  error_details : String
deriving Repr, DecidableEq

/-- Modelled from the spec: the SDK's `ResultReason` enumeration (the
vendored `enums` module is not among the sources).  The three members that
`voice_to_text` inspects are listed; the enumeration's remaining members
(`RecognizingSpeech`, `TranslatedSpeech`, ...) are collapsed into a
catch-all carrying their numeric code. -/
inductive ResultReason where
  | recognizedSpeech
  | noMatch
  | canceled
  | otherMember (code : Nat)
deriving Repr, DecidableEq

/-- Embedding of the SDK's `SpeechRecognitionResult` as read by
`voice_to_text`: reason, recognized text, no-match details and
cancellation details. -/
structure SpeechRecognitionResult where
  reason : ResultReason
  text : String
  no_match_details : String
  cancellation_details : CancellationDetails
deriving Repr, DecidableEq

/-- Modelled from the spec: "blocks until exactly one of three outcomes is
returned" — a completed `recognize_once` call carries one of the three
reasons `RecognizedSpeech`, `NoMatch`, `Canceled`. -/
def ResultReason.isRecognizeOnceOutcome : ResultReason → Bool
  | .recognizedSpeech => true
  | .noMatch => true
  | .canceled => true
  | .otherMember _ => false

/-- The spec's `RecognitionOutcome` tagged variant:
`{Recognized(text), NoMatch(details), Canceled(reason, optional error-detail)}`. -/
inductive RecognitionOutcome where
  | recognized (text : String)
  | noMatchFound (details : String)
  | canceled (reason : CancellationReason) (error_detail : Option String)
deriving Repr, DecidableEq

def RecognitionOutcome.isRecognized : RecognitionOutcome → Bool
  | .recognized _ => true
  | _ => false

def RecognitionOutcome.isNoMatchFound : RecognitionOutcome → Bool
  | .noMatchFound _ => true
  | _ => false

def RecognitionOutcome.isCanceled : RecognitionOutcome → Bool
  | .canceled _ _ => true
  | _ => false

/-- One console print of `voice_to_text`, one constructor per `print`
statement in `speech_recognition.py`. -/
inductive PrintEvent where
  /-- `print("Que te gustaria pedir?.")` -/
  | prompt
  /-- `print("Recognized: {}".format(...text))` -/
  | recognized (text : String)
  /-- `print("No speech could be recognized: {}".format(...no_match_details))` -/
  | noSpeech (details : String)
  /-- `print("Speech Recognition canceled: {}".format(cancellation_details.reason))` -/
  | canceledMsg (reason : CancellationReason)
  /-- `print("Errtranscripcionor details: {}".format(cancellation_details.error_details))` -/
  | errorDetails (details : String)
  /-- `print("Did you set the speech resource key and region values?")` -/
  | keyRegionHint
deriving Repr, DecidableEq

/-- One interaction of `voice_to_text` with the speech SDK. -/
inductive SdkOp where
  /-- `speechsdk.SpeechConfig(subscription=..., region=...)` -/
  | mkSpeechConfig (subscription region : String)
  /-- `speech_config.speech_recognition_language = ...` -/
  | setLanguage (language : String)
  /-- `speechsdk.audio.AudioConfig(filename=...)` -/
  | mkAudioConfig (filename : String)
  /-- `speechsdk.SpeechRecognizer(speech_config=..., audio_config=...)` -/
  | mkRecognizer
  /-- `speech_recognizer.recognize_once_async().get()` — the single blocking
  recognition call -/
  | recognizeOnce
deriving Repr, DecidableEq

def SdkOp.isMkSpeechConfig : SdkOp → Bool
  | .mkSpeechConfig _ _ => true
  | _ => false

/-- The session configuration `voice_to_text` builds, as submitted to the
remote service. -/
structure SpeechConfig where
  subscription : String
  region : String
  speech_recognition_language : String
deriving Repr, DecidableEq

/-- The configuration built at `speech_recognition.py:5-6`: subscription
key and region are string literals in the source, the language is set to
`"es-ES"`. -/
def voiceToTextConfig : SpeechConfig :=
  { subscription := "9f0e9105b01446e9a97f495cf1404ff2"
    region := "westus2"
    speech_recognition_language := "es-ES" }

/-- The console output of the `if/elif/elif` classification chain at
`speech_recognition.py:13-23`, one branch per `reason` comparison; the
nested `if` prints error details only when the cancellation reason is
`Error`. -/
def classificationOutput (r : SpeechRecognitionResult) : List PrintEvent :=
  if r.reason = ResultReason.recognizedSpeech then
    [PrintEvent.recognized r.text]
  else if r.reason = ResultReason.noMatch then
    [PrintEvent.noSpeech r.no_match_details]
  else if r.reason = ResultReason.canceled then
    PrintEvent.canceledMsg r.cancellation_details.reason ::
      (if r.cancellation_details.reason = CancellationReason.error then
        [PrintEvent.errorDetails r.cancellation_details.error_details,
         PrintEvent.keyRegionHint]
       else [])
  else []

/-- The `RecognitionOutcome` the classification chain assigns to a result:
the branch taken determines the variant, and in the `Canceled` branch the
error-detail string is surfaced exactly when the cancellation reason is
`Error`. -/
def classifyResult (r : SpeechRecognitionResult) : Option RecognitionOutcome :=
  if r.reason = ResultReason.recognizedSpeech then
    some (RecognitionOutcome.recognized r.text)
  else if r.reason = ResultReason.noMatch then
    some (RecognitionOutcome.noMatchFound r.no_match_details)
  else if r.reason = ResultReason.canceled then
    some (RecognitionOutcome.canceled r.cancellation_details.reason
      (if r.cancellation_details.reason = CancellationReason.error then
        some r.cancellation_details.error_details
       else none))
  else none

/-- The observable behaviour of one `voice_to_text` invocation: the SDK
operations performed, the console output, and the returned value. -/
structure VttRun where
  ops : List SdkOp
  output : List PrintEvent
  result : SpeechRecognitionResult
deriving Repr, DecidableEq

/-- Embedding of `voice_to_text` (`speech_recognition.py:4-24`).  The
remote service is the parameter `service`, mapping the submitted session
configuration and audio path to the recognition result; the function
builds the hardcoded configuration, performs one blocking recognition
call, prints the classification messages and returns the raw result. -/
def voice_to_text (service : SpeechConfig → String → SpeechRecognitionResult)
    (audiofile : String) : VttRun :=
  let speech_config := voiceToTextConfig
  let speech_recognition_result := service speech_config audiofile
  { ops := [SdkOp.mkSpeechConfig "9f0e9105b01446e9a97f495cf1404ff2" "westus2",
            SdkOp.setLanguage "es-ES",
            SdkOp.mkAudioConfig audiofile,
            SdkOp.mkRecognizer,
            SdkOp.recognizeOnce]
    output := PrintEvent.prompt :: classificationOutput speech_recognition_result
    result := speech_recognition_result }

/-- `voice_to_text` with an explicit (unused) environment argument: the
source reads no environment variable or configuration file, so any
externally supplied credential/region pair is ignored. -/
def voice_to_textWithEnv (_env : String × String)
    (service : SpeechConfig → String → SpeechRecognitionResult)
    (audiofile : String) : VttRun :=
  voice_to_text service audiofile

/-! ## `app.py` — upload handler and audio normalizer -/

inductive HttpMethod where
  | get
  | post
deriving Repr, DecidableEq

/-- A Flask response value as produced by the handlers in `app.py`:
either `render_template(t)` or `redirect(url_for(endpoint))`. -/
inductive HttpResponse where
  | render (template : String)
  | redirect (endpoint : String)
deriving Repr, DecidableEq

/-- A request to the `/uploader` route: method, plus the multipart file
field when one was submitted (client filename and raw bytes). -/
structure UploadRequest where
  method : HttpMethod
  file : Option (String × List Nat)
deriving Repr, DecidableEq

/-- Embedding of `upload_file` (`app.py:26-29`).  The body is
`if request.method == 'POST': return redirect(url_for('menu_page'))` and
nothing else: on POST it returns the redirect, on GET it falls off the end
of the function (Python returns `None`, here `none`).  The first component
lists the files the handler writes to disk; the body contains no save or
write call, so it is empty on every path. -/
def upload_file (req : UploadRequest) : List (String × List Nat) × Option HttpResponse :=
  match req.method with
  | HttpMethod.post => ([], some (HttpResponse.redirect "menu_page"))
  | HttpMethod.get => ([], none)

/-- A decoded audio segment; the sample data is abstracted to a byte
list. -/
structure AudioSegment where
  data : List Nat
deriving Repr, DecidableEq

/-- A decoding failure raised while reading the input file. -/
structure DecodeError where
  message : String
deriving Repr, DecidableEq

/-- Modelled from the spec: `pydub.AudioSegment.export` (pydub is not
among the sources) encodes the decoded segment into the destination file's
bytes. -/
def exportWav (sound : AudioSegment) : List Nat :=
  sound.data

/-- Embedding of `convert_audio` (`app.py:31-38`).  `pydub` is not among
the sources, so `AudioSegment.from_file` is the parameter `from_file`,
which either raises a decoding error or yields a segment (modelled from
the spec: "decoding failure ... must surface as a distinguishable error
condition").  The body sets `dst = "audio/test.wav"`, decodes `src`,
exports to `dst` and returns `dst`; a raised decode error propagates
before the export, so nothing is written.  The first component lists the
files written. -/
def convert_audio (from_file : String → Except DecodeError AudioSegment)
    (input_path : String) : List (String × List Nat) × Except DecodeError String :=
  let src := input_path
  let dst := "audio/test.wav"
  match from_file src with
  | Except.error e => ([], Except.error e)
  | Except.ok sound => ([(dst, exportWav sound)], Except.ok dst)

/-! ## Vendored binding: `azure/cognitiveservices/speech/dialog.py` -/

/-- Modelled from the spec: a native-layer future; `get` blocks until the
operation finishes and yields its value.  (The native `speech_py_impl`
layer is not among the sources; the spec models each operation "as a
single asynchronous primitive (task/future)".) -/
structure ImplFuture (α : Type) where
  value : α
deriving Repr, DecidableEq

def ImplFuture.get {α : Type} (f : ImplFuture α) : α :=
  f.value

/-- Modelled from the spec: `ResultFuture` from the binding's `speech`
module (not among the sources): it wraps a native future together with the
`wrapped_type` conversion, and its `get` waits on the native future and
applies the conversion. -/
structure ResultFuture (α β : Type) where
  handle : ImplFuture α
  wrapped_type : α → β

def ResultFuture.get {α β : Type} (f : ResultFuture α β) : β :=
  f.wrapped_type f.handle.get

/-- Python's `str` applied to the string payload of a send-activity
future: the identity conversion. -/
def pyStr (s : String) : String := s

/-- The native result payload a `listen_once` interaction yields,
abstracted to its raw fields. -/
structure ImplSpeechResult where
  payload : List Nat
deriving Repr, DecidableEq

/-- The binding's `SpeechRecognitionResult` wrapper constructed from a
native result (`SpeechRecognitionResult(impl_result)`). -/
structure WrappedSpeechResult where
  impl : ImplSpeechResult
deriving Repr, DecidableEq

/-- The native keyword-model handle held by a `KeywordRecognitionModel`
(`model._impl`). -/
structure ImplKeywordModel where
  handle : Nat
deriving Repr, DecidableEq

structure KeywordRecognitionModel where
  _impl : ImplKeywordModel
deriving Repr, DecidableEq

/-- The native `DialogServiceConnector` (`self._impl`): one
future-returning operation per method the binding forwards to.  Each
operation is a function of its arguments, modelling the deterministic
native layer one connector instance exposes. -/
structure ImplDialogServiceConnector where
  connect_async : Unit → ImplFuture Unit
  disconnect_async : Unit → ImplFuture Unit
  send_activity_async : String → ImplFuture String
  start_keyword_recognition_async : ImplKeywordModel → ImplFuture Unit
  stop_keyword_recognition_async : Unit → ImplFuture Unit
  listen_once_async : Unit → ImplFuture ImplSpeechResult
  stop_listening_async : Unit → ImplFuture Unit

structure DialogServiceConnector where
  _impl : ImplDialogServiceConnector

/-- `dialog.py:361` — `return self._impl.connect_async().get()`. -/
def DialogServiceConnector.connect (c : DialogServiceConnector) : Unit :=
  (c._impl.connect_async ()).get

/-- `dialog.py` — `return self._impl.connect_async()`. -/
def DialogServiceConnector.connect_async (c : DialogServiceConnector) : ImplFuture Unit :=
  c._impl.connect_async ()

/-- `dialog.py` — `return self._impl.disconnect_async().get()`. -/
def DialogServiceConnector.disconnect (c : DialogServiceConnector) : Unit :=
  (c._impl.disconnect_async ()).get

/-- `dialog.py` — `return self._impl.disconnect_async()`. -/
def DialogServiceConnector.disconnect_async (c : DialogServiceConnector) : ImplFuture Unit :=
  c._impl.disconnect_async ()

/-- `dialog.py` — `return self._impl.send_activity_async(activity).get()`. -/
def DialogServiceConnector.send_activity (c : DialogServiceConnector)
    (activity : String) : String :=
  (c._impl.send_activity_async activity).get

/-- `dialog.py` — `return ResultFuture(self._impl.send_activity_async(activity), str)`. -/
def DialogServiceConnector.send_activity_async (c : DialogServiceConnector)
    (activity : String) : ResultFuture String String :=
  { handle := c._impl.send_activity_async activity, wrapped_type := pyStr }

/-- `dialog.py` — `return self._impl.start_keyword_recognition_async(model._impl).get()`. -/
def DialogServiceConnector.start_keyword_recognition (c : DialogServiceConnector)
    (model : KeywordRecognitionModel) : Unit :=
  (c._impl.start_keyword_recognition_async model._impl).get

/-- `dialog.py` — `return self._impl.start_keyword_recognition_async(model._impl)`. -/
def DialogServiceConnector.start_keyword_recognition_async (c : DialogServiceConnector)
    (model : KeywordRecognitionModel) : ImplFuture Unit :=
  c._impl.start_keyword_recognition_async model._impl

/-- `dialog.py` — `return self._impl.stop_keyword_recognition_async().get()`. -/
def DialogServiceConnector.stop_keyword_recognition (c : DialogServiceConnector) : Unit :=
  (c._impl.stop_keyword_recognition_async ()).get

/-- `dialog.py` — `return self._impl.stop_keyword_recognition_async()`. -/
def DialogServiceConnector.stop_keyword_recognition_async (c : DialogServiceConnector) : ImplFuture Unit :=
  c._impl.stop_keyword_recognition_async ()

/-- `dialog.py:495` — `return SpeechRecognitionResult(self._impl.listen_once_async().get())`. -/
def DialogServiceConnector.listen_once (c : DialogServiceConnector) : WrappedSpeechResult :=
  WrappedSpeechResult.mk (c._impl.listen_once_async ()).get

/-- `dialog.py` — `return ResultFuture(self._impl.listen_once_async(), SpeechRecognitionResult)`. -/
def DialogServiceConnector.listen_once_async (c : DialogServiceConnector) :
    ResultFuture ImplSpeechResult WrappedSpeechResult :=
  { handle := c._impl.listen_once_async (), wrapped_type := WrappedSpeechResult.mk }

/-- `dialog.py` — `return self._impl.stop_listening_async().get()`. -/
def DialogServiceConnector.stop_listening (c : DialogServiceConnector) : Unit :=
  (c._impl.stop_listening_async ()).get

/-- `dialog.py` — `return self._impl.stop_listening_async()`. -/
def DialogServiceConnector.stop_listening_async (c : DialogServiceConnector) : ImplFuture Unit :=
  c._impl.stop_listening_async ()

/-! ## Concrete fixtures used by witnesses and counterexamples -/

/-- A fixture result with reason `NoMatch`. -/
def noMatchFixture : SpeechRecognitionResult :=
  { reason := ResultReason.noMatch
    text := ""
    no_match_details := "NoMatchReason.InitialSilenceTimeout"
    cancellation_details := { reason := CancellationReason.endOfStream, error_details := "" } }

/-- A fixture remote service that always reports `NoMatch`. -/
def noMatchService : SpeechConfig → String → SpeechRecognitionResult :=
  fun _ _ => noMatchFixture

/-- A fixture result cancelled with reason `Error`. -/
def canceledErrorFixture : SpeechRecognitionResult :=
  { reason := ResultReason.canceled
    text := ""
    no_match_details := ""
    cancellation_details :=
      { reason := CancellationReason.error
        error_details := "WebSocket upgrade failed: Unauthorized (401)" } }

/-- A fixture remote service that always reports an error cancellation. -/
def canceledErrorService : SpeechConfig → String → SpeechRecognitionResult :=
  fun _ _ => canceledErrorFixture

/-- A fixture decoder that succeeds with a two-sample segment. -/
def okDecoder : String → Except DecodeError AudioSegment :=
  fun _ => Except.ok { data := [7, 7] }

/-- A fixture decoder that always fails. -/
def failingDecoder : String → Except DecodeError AudioSegment :=
  fun _ => Except.error { message := "Decoding failed. ffmpeg returned error code: 1" }

/-! ## Claims -/

/-- C1: every completed `voice_to_text` invocation — the remote call
yields one of the three recognize-once reasons — is classified into
exactly one `RecognitionOutcome` variant (`Recognized`, `NoMatch` or
`Canceled`); the three `if/elif/elif` branch conditions are mutually
exclusive, so no partial or multiple outcomes occur. -/
theorem c1_exactly_one_outcome
    (service : SpeechConfig → String → SpeechRecognitionResult) (audiofile : String)
    (h : (voice_to_text service audiofile).result.reason.isRecognizeOnceOutcome = true) :
    ((if (voice_to_text service audiofile).result.reason = ResultReason.recognizedSpeech then 1 else 0)
      + (if (voice_to_text service audiofile).result.reason = ResultReason.noMatch then 1 else 0)
      + (if (voice_to_text service audiofile).result.reason = ResultReason.canceled then 1 else 0) = 1)
    ∧ ∃ o : RecognitionOutcome,
        classifyResult (voice_to_text service audiofile).result = some o
        ∧ o.isRecognized.toNat + o.isNoMatchFound.toNat + o.isCanceled.toNat = 1 := by
  rcases hr : (voice_to_text service audiofile).result with ⟨reason, text, nmd, cd⟩
  rw [hr] at h
  cases reason with
  | recognizedSpeech =>
      refine ⟨by simp, RecognitionOutcome.recognized text, ?_, by simp [RecognitionOutcome.isRecognized,
        RecognitionOutcome.isNoMatchFound, RecognitionOutcome.isCanceled]⟩
      simp [classifyResult]
  | noMatch =>
      refine ⟨by simp, RecognitionOutcome.noMatchFound nmd, ?_, by simp [RecognitionOutcome.isRecognized,
        RecognitionOutcome.isNoMatchFound, RecognitionOutcome.isCanceled]⟩
      simp [classifyResult]
  | canceled =>
      refine ⟨by simp, RecognitionOutcome.canceled cd.reason
        (if cd.reason = CancellationReason.error then some cd.error_details else none), ?_,
        by simp [RecognitionOutcome.isRecognized, RecognitionOutcome.isNoMatchFound,
          RecognitionOutcome.isCanceled]⟩
      simp [classifyResult]
  | otherMember code =>
      simp [ResultReason.isRecognizeOnceOutcome] at h

theorem c1_exactly_one_outcome_witness :
    ((voice_to_text noMatchService "audio/test.wav").result.reason.isRecognizeOnceOutcome = true)
    ∧ (((if (voice_to_text noMatchService "audio/test.wav").result.reason = ResultReason.recognizedSpeech then 1 else 0)
        + (if (voice_to_text noMatchService "audio/test.wav").result.reason = ResultReason.noMatch then 1 else 0)
        + (if (voice_to_text noMatchService "audio/test.wav").result.reason = ResultReason.canceled then 1 else 0) = 1)
      ∧ ∃ o : RecognitionOutcome,
          classifyResult (voice_to_text noMatchService "audio/test.wav").result = some o
          ∧ o.isRecognized.toNat + o.isNoMatchFound.toNat + o.isCanceled.toNat = 1) :=
  ⟨rfl, c1_exactly_one_outcome noMatchService "audio/test.wav" rfl⟩

/-- C2 counterexample: on a POST to `/uploader` carrying a file, the
handler stores no file at any path — its write list is empty, refuting
"stores the uploaded file at a deterministic or generated filesystem
path". -/
theorem c2_counterexample :
    ¬ ∃ p b, (p, b) ∈ (upload_file
      { method := HttpMethod.post, file := some ("pedido.ogg", [4, 5, 6]) }).1 := by
  simp [upload_file]

/-- C2 (amended): for every POST request to `/uploader` (with or without
a file field), `upload_file` stores nothing on disk and responds with a
redirect to the menu view. -/
theorem c2_post_redirects_without_storing (req : UploadRequest)
    (h : req.method = HttpMethod.post) :
    upload_file req = ([], some (HttpResponse.redirect "menu_page")) := by
  simp [upload_file, h]

theorem c2_post_redirects_without_storing_witness :
    ({ method := HttpMethod.post, file := some ("pedido.ogg", [4, 5, 6]) : UploadRequest }.method
        = HttpMethod.post)
    ∧ upload_file { method := HttpMethod.post, file := some ("pedido.ogg", [4, 5, 6]) }
        = ([], some (HttpResponse.redirect "menu_page")) :=
  ⟨rfl, c2_post_redirects_without_storing
    { method := HttpMethod.post, file := some ("pedido.ogg", [4, 5, 6]) } rfl⟩

/-- C3: whenever decoding succeeds, `convert_audio` writes the re-encoded
wave data to the single fixed path `"audio/test.wav"` (its only write) and
returns that same fixed path, independently of the input path. -/
theorem c3_fixed_output_path (from_file : String → Except DecodeError AudioSegment)
    (input_path : String) (sound : AudioSegment)
    (h : from_file input_path = Except.ok sound) :
    convert_audio from_file input_path
      = ([("audio/test.wav", exportWav sound)], Except.ok "audio/test.wav") := by
  simp [convert_audio, h]

theorem c3_fixed_output_path_witness :
    (okDecoder "uploads/cancion.mp3" = Except.ok { data := [7, 7] })
    ∧ convert_audio okDecoder "uploads/cancion.mp3"
        = ([("audio/test.wav", exportWav { data := [7, 7] })], Except.ok "audio/test.wav") :=
  ⟨rfl, c3_fixed_output_path okDecoder "uploads/cancion.mp3" { data := [7, 7] } rfl⟩

/-- C4: when decoding the input fails, `convert_audio` surfaces that exact
`DecodeError` to its caller and writes no file at all — not an empty,
zero-byte or partial one (its write list is empty). -/
theorem c4_decode_error_propagates (from_file : String → Except DecodeError AudioSegment)
    (input_path : String) (e : DecodeError)
    (h : from_file input_path = Except.error e) :
    convert_audio from_file input_path = ([], Except.error e) := by
  simp [convert_audio, h]

theorem c4_decode_error_propagates_witness :
    (failingDecoder "uploads/corrupt.bin"
        = Except.error { message := "Decoding failed. ffmpeg returned error code: 1" })
    ∧ convert_audio failingDecoder "uploads/corrupt.bin"
        = ([], Except.error { message := "Decoding failed. ffmpeg returned error code: 1" }) :=
  ⟨rfl, c4_decode_error_propagates failingDecoder "uploads/corrupt.bin"
    { message := "Decoding failed. ffmpeg returned error code: 1" } rfl⟩

/-- C5: when the recognition outcome is `Canceled`, an error-detail print
is emitted if and only if the cancellation reason is `Error`, and any
emitted error detail is exactly the result's `error_details` string;
non-error cancellation reasons surface no error detail. -/
theorem c5_error_detail_iff_error_reason
    (service : SpeechConfig → String → SpeechRecognitionResult) (audiofile : String)
    (h : (voice_to_text service audiofile).result.reason = ResultReason.canceled) :
    ((∃ d, PrintEvent.errorDetails d ∈ (voice_to_text service audiofile).output)
      ↔ (voice_to_text service audiofile).result.cancellation_details.reason
          = CancellationReason.error)
    ∧ ∀ d, PrintEvent.errorDetails d ∈ (voice_to_text service audiofile).output
        → d = (voice_to_text service audiofile).result.cancellation_details.error_details := by
  rcases hr : (voice_to_text service audiofile).result with ⟨reason, text, nmd, cd⟩
  rw [hr] at h
  subst h
  have hout : (voice_to_text service audiofile).output
      = PrintEvent.prompt :: classificationOutput (voice_to_text service audiofile).result := rfl
  rw [hout, hr]
  rcases cd with ⟨creason, cdetails⟩
  cases creason with
  | error =>
      constructor
      · constructor
        · intro _; rfl
        · intro _; exact ⟨cdetails, by simp [classificationOutput]⟩
      · intro d hd
        simp [classificationOutput] at hd
        exact hd
  | endOfStream =>
      constructor
      · constructor
        · intro ⟨d, hd⟩
          simp [classificationOutput] at hd
        · intro hc; cases hc
      · intro d hd
        simp [classificationOutput] at hd
  | cancelledByUser =>
      constructor
      · constructor
        · intro ⟨d, hd⟩
          simp [classificationOutput] at hd
        · intro hc; cases hc
      · intro d hd
        simp [classificationOutput] at hd

theorem c5_error_detail_iff_error_reason_witness :
    ((voice_to_text canceledErrorService "audio/test.wav").result.reason = ResultReason.canceled)
    ∧ (((∃ d, PrintEvent.errorDetails d ∈ (voice_to_text canceledErrorService "audio/test.wav").output)
        ↔ (voice_to_text canceledErrorService "audio/test.wav").result.cancellation_details.reason
            = CancellationReason.error)
      ∧ ∀ d, PrintEvent.errorDetails d ∈ (voice_to_text canceledErrorService "audio/test.wav").output
          → d = (voice_to_text canceledErrorService "audio/test.wav").result.cancellation_details.error_details) :=
  ⟨rfl, c5_error_detail_iff_error_reason canceledErrorService "audio/test.wav" rfl⟩

/-- C6 counterexample: on a GET to `/uploader` the handler renders
nothing — the Python function body has no GET branch and returns `None`,
refuting "renders an upload form as the response". -/
theorem c6_counterexample :
    ¬ ∃ t, (upload_file { method := HttpMethod.get, file := none }).2
        = some (HttpResponse.render t) := by
  simp [upload_file]

/-- C6 (amended): for every GET request to `/uploader`, `upload_file`
produces no response at all (Python's implicit `None`), rather than
rendering an upload form. -/
theorem c6_get_returns_none (req : UploadRequest) (h : req.method = HttpMethod.get) :
    upload_file req = ([], none) := by
  simp [upload_file, h]

theorem c6_get_returns_none_witness :
    ({ method := HttpMethod.get, file := none : UploadRequest }.method = HttpMethod.get)
    ∧ upload_file { method := HttpMethod.get, file := none } = ([], none) :=
  ⟨rfl, c6_get_returns_none { method := HttpMethod.get, file := none } rfl⟩

/-- C7 counterexample: two runs supplied with different external
credential/region pairs submit identical session-configuration calls —
both build `SpeechConfig` with the subscription key
`"9f0e9105b01446e9a97f495cf1404ff2"` and region `"westus2"` that are
string literals in the source, so the configuration does not vary with the
externally supplied values. -/
theorem c7_counterexample :
    ((voice_to_textWithEnv ("env-key-A", "eastus") noMatchService "a.wav").ops.filter
        SdkOp.isMkSpeechConfig
      = (voice_to_textWithEnv ("env-key-B", "westeurope") noMatchService "b.wav").ops.filter
        SdkOp.isMkSpeechConfig)
    ∧ (voice_to_textWithEnv ("env-key-A", "eastus") noMatchService "a.wav").ops.filter
        SdkOp.isMkSpeechConfig
      = [SdkOp.mkSpeechConfig "9f0e9105b01446e9a97f495cf1404ff2" "westus2"] :=
  ⟨rfl, rfl⟩

/-- C7 (amended): the credential/region pair is hardcoded in the source of
`voice_to_text`: whatever credential/region the environment supplies,
every run submits exactly one session-configuration call, carrying the
fixed subscription key `"9f0e9105b01446e9a97f495cf1404ff2"` and region
`"westus2"`. -/
theorem c7_credentials_hardcoded (env : String × String)
    (service : SpeechConfig → String → SpeechRecognitionResult) (audiofile : String) :
    (voice_to_textWithEnv env service audiofile).ops.filter SdkOp.isMkSpeechConfig
      = [SdkOp.mkSpeechConfig "9f0e9105b01446e9a97f495cf1404ff2" "westus2"] :=
  rfl

/-- C8: every `voice_to_text` invocation performs exactly one blocking
recognition call against the remote service — the operation trace contains
`recognizeOnce` exactly once, whatever the outcome, so there is no retry
on `NoMatch` or `Canceled`. -/
theorem c8_single_recognition_call
    (service : SpeechConfig → String → SpeechRecognitionResult) (audiofile : String) :
    (voice_to_text service audiofile).ops.count SdkOp.recognizeOnce = 1 := by
  simp [voice_to_text, List.count, SdkOp.mkSpeechConfig]

/-- C9: for every `DialogServiceConnector` operation with both a blocking
and a future-returning variant, the blocking variant equals invoking the
future-returning variant and immediately waiting on the returned future;
in particular `listen_once()` returns the same wrapped
`SpeechRecognitionResult` as `listen_once_async().get()`. -/
theorem c9_blocking_equals_async_get (c : DialogServiceConnector) :
    c.connect = c.connect_async.get
    ∧ c.disconnect = c.disconnect_async.get
    ∧ (∀ activity, c.send_activity activity = (c.send_activity_async activity).get)
    ∧ (∀ model, c.start_keyword_recognition model
        = (c.start_keyword_recognition_async model).get)
    ∧ c.stop_keyword_recognition = c.stop_keyword_recognition_async.get
    ∧ c.listen_once = c.listen_once_async.get
    ∧ c.stop_listening = c.stop_listening_async.get :=
  ⟨rfl, rfl, fun _ => rfl, fun _ => rfl, rfl, rfl, rfl⟩

/-- C10: `voice_to_text` returns the raw result of the single
`recognize_once_async().get()` call unchanged, for every possible reason
(the three classified ones and any other enumeration member): the
classification branches only print and never modify, wrap or replace the
result. -/
theorem c10_returns_raw_result
    (service : SpeechConfig → String → SpeechRecognitionResult) (audiofile : String) :
    (voice_to_text service audiofile).result = service voiceToTextConfig audiofile :=
  rfl
